import Mathlib

/-!
Verification of the Nexus media-processing pipeline and its status
delivery layer.

The first part models the orchestrator pipeline (extraction, dedup gate,
transcription, enrichment, embedding) together with its retry policy; the
backend worker implementation is not part of the checked sources, so these
definitions are modelled from the specification text.  The second part
embeds the frontend API client (`pollJobStatus` and the
`WebSocketService`) and the `002_add_subscription_support.sql` migration,
which are present as source.
-/

/- ## Pipeline data model (modelled from the spec) -/

/-- Lifecycle status of a `MediaItem` (spec section 3: created `pending`,
mutated by the orchestrator, terminal `completed`, `duplicate` or `error`). -/
inductive MStatus
  | pending
  | completed
  | duplicate
  | error
  deriving DecidableEq, Repr

/-- Modelled from the spec: the durable unit of archived content, with a
nullable content fingerprint, transcript, summary, tag set, embedding
vector, lifecycle status and an optional link to the canonical item when
resolved as a duplicate (spec section 3, MediaItem). -/
structure MediaItem where
  id : Nat
  fingerprint : Option Nat
  transcript : String
  summary : String
  tags : List String
  embedding : Option (List Int)
  status : MStatus
  duplicateOf : Option Nat
  deriving DecidableEq, Repr

/-- Result of one call to a stage collaborator: success, a transient
failure (retryable) or a permanent failure (spec section 4.2). -/
inductive StageResult (α : Type)
  | ok (val : α)
  | transient
  | permanent
  deriving DecidableEq, Repr

/-- Outcome of running one stage under the retry policy: success or
failure, each carrying the number of attempts consumed. -/
inductive RetryOutcome (α : Type)
  | success (val : α) (attempts : Nat)
  | failed (attempts : Nat)
  deriving DecidableEq, Repr

/-- Attempts consumed by a stage run. -/
def RetryOutcome.attempts : RetryOutcome α → Nat
  | .success _ a => a
  | .failed a => a

/-- Modelled from the spec: retry loop for one stage (spec section 4.3).
`f n` is the collaborator's result on the `n`-th call (0-based); transient
failures are retried while attempts remain, a permanent failure stops
immediately, and `remaining = 0` means the transient retries are
exhausted. -/
def runWithRetriesAux (f : Nat → StageResult α) : Nat → Nat → RetryOutcome α
  | 0, used => .failed used
  | remaining + 1, used =>
    match f used with
    | .ok v => .success v (used + 1)
    | .permanent => .failed (used + 1)
    | .transient => runWithRetriesAux f remaining (used + 1)

/-- Modelled from the spec: run a stage collaborator with at most
`maxAttempts` attempts (spec section 4.3, recommended maximum 3). -/
def runWithRetries (maxAttempts : Nat) (f : Nat → StageResult α) : RetryOutcome α :=
  runWithRetriesAux f maxAttempts 0

/-- The recommended per-stage attempt maximum (spec section 4.3). -/
def maxStageAttempts : Nat := 3

/-- Output of the Extract stage (spec section 6:
`Extractor.extract(sourceRef) -> {blobKey, durationSeconds, kind}`). -/
structure BlobInfo where
  blobKey : Nat
  durationSeconds : Nat
  kind : String
  deriving DecidableEq, Repr

/-- Modelled from the spec: the stage collaborators injected into the
orchestrator (spec sections 2 and 6).  Each fallible collaborator is
indexed by the attempt number; the fingerprinter is a deterministic
function of the blob key. -/
structure Collab where
  extract : Nat → StageResult BlobInfo
  fingerprintOf : Nat → Nat
  transcribe : Nat → StageResult String
  enrich : Nat → StageResult (String × List String)
  embed : Nat → StageResult (List Int)

/-- A media submission: the id assigned to the fresh MediaItem, its title
and an opaque source reference. -/
structure MediaRequest where
  id : Nat
  title : String
  source : Nat
  deriving DecidableEq, Repr

/-- Names of the pipeline stages, in order. -/
inductive StageName
  | extract
  | dedupCheck
  | transcribe
  | enrich
  | embed
  deriving DecidableEq, Repr

/-- Terminal status of a Job after the pipeline ran (spec section 4.5:
`completed`, `duplicate` and `error` are the terminal states). -/
inductive JStatus
  | completed
  | duplicate
  | error
  deriving DecidableEq, Repr

/-- Result of driving one Job through the pipeline: the store after the
run, the Job's terminal status, the stages whose collaborator was invoked,
the per-stage attempt counters, and the final state of the MediaItem. -/
structure PipelineResult where
  store : List MediaItem
  jobStatus : JStatus
  invoked : List StageName
  attempts : List (StageName × Nat)
  item : MediaItem
  deriving Repr

/-- Fresh MediaItem created at submission time (spec section 3: created
`pending`, fingerprint null until computed). -/
def newMediaItem (req : MediaRequest) : MediaItem :=
  { id := req.id, fingerprint := none, transcript := "", summary := "",
    tags := [], embedding := none, status := .pending, duplicateOf := none }

/-- Modelled from the spec: the Fingerprint Index lookup used by the dedup
gate (spec section 4.2): find a *different*, non-error MediaItem that owns
the fingerprint; duplicate items do not own a fingerprint, the index maps
a fingerprint to the canonical item (spec section 2). -/
def findCanonical (store : List MediaItem) (fp : Nat) (selfId : Nat) : Option MediaItem :=
  store.find? fun m =>
    m.fingerprint == some fp && m.id != selfId && m.status != .error && m.status != .duplicate

/-- Summary kept from an Enrich outcome: empty on failure (graceful
degradation, spec section 4.2). -/
def enrichSummary : RetryOutcome (String × List String) → String
  | .success st _ => st.1
  | .failed _ => ""

/-- Tag set kept from an Enrich outcome: empty on failure (graceful
degradation, spec section 4.2). -/
def enrichTags : RetryOutcome (String × List String) → List String
  | .success st _ => st.2
  | .failed _ => []

/-- Vector kept from an Embed outcome: none on failure (the item
completes without a vector, spec section 4.2). -/
def embedVec : RetryOutcome (List Int) → Option (List Int)
  | .success v _ => some v
  | .failed _ => none

/-- Modelled from the spec: the pipeline orchestrator (spec sections 4.1,
4.2).  Stages run strictly in order: extract, fingerprint/dedup-check,
transcribe, enrich, embed.  Extract or transcribe failure terminates the
Job as `error`; a dedup hit short-circuits to `duplicate`; enrich and
embed degrade gracefully (empty summary/tags, missing vector) without
failing the Job.  The run appends the final MediaItem to the store and
mutates no existing item. -/
def runPipeline (store : List MediaItem) (c : Collab) (req : MediaRequest) : PipelineResult :=
  let item0 := newMediaItem req
  match runWithRetries maxStageAttempts c.extract with
  | .failed aE =>
    let itemE := { item0 with status := .error }
    ⟨store ++ [itemE], .error, [.extract], [(.extract, aE)], itemE⟩
  | .success blob aE =>
    let fp := c.fingerprintOf blob.blobKey
    match findCanonical store fp req.id with
    | some canon =>
      let itemD := { item0 with fingerprint := some fp, status := .duplicate, duplicateOf := some canon.id }
      ⟨store ++ [itemD], .duplicate, [.extract, .dedupCheck],
        [(.extract, aE), (.dedupCheck, 1)], itemD⟩
    | none =>
      let item1 := { item0 with fingerprint := some fp }
      match runWithRetries maxStageAttempts c.transcribe with
      | .failed aT =>
        let itemT := { item1 with status := .error }
        ⟨store ++ [itemT], .error, [.extract, .dedupCheck, .transcribe],
          [(.extract, aE), (.dedupCheck, 1), (.transcribe, aT)], itemT⟩
      | .success text aT =>
        let enr := runWithRetries maxStageAttempts c.enrich
        let emb := runWithRetries maxStageAttempts c.embed
        let itemF := { item1 with transcript := text, summary := enrichSummary enr, tags := enrichTags enr, embedding := embedVec emb, status := .completed }
        ⟨store ++ [itemF], .completed,
          [.extract, .dedupCheck, .transcribe, .enrich, .embed],
          [(.extract, aE), (.dedupCheck, 1), (.transcribe, aT),
           (.enrich, enr.attempts), (.embed, emb.attempts)], itemF⟩

/-- The fingerprint-uniqueness invariant exactly as the spec states it
(spec section 3): fingerprint, once set, is unique across non-duplicate
items. -/
def fingerprintUnique (store : List MediaItem) : Prop :=
  ∀ m1 ∈ store, ∀ m2 ∈ store,
    m1.status ≠ .duplicate → m2.status ≠ .duplicate → m1.id ≠ m2.id →
      m1.fingerprint.isSome = true → m1.fingerprint ≠ m2.fingerprint

/-- The fingerprint-uniqueness invariant restricted to non-error items:
the form the dedup gate of spec section 4.2 actually preserves, since the
gate deliberately ignores error items when looking up an owner. -/
def fingerprintUniqueLive (store : List MediaItem) : Prop :=
  ∀ m1 ∈ store, ∀ m2 ∈ store,
    m1.status ≠ .duplicate → m2.status ≠ .duplicate →
    m1.status ≠ .error → m2.status ≠ .error → m1.id ≠ m2.id →
      m1.fingerprint.isSome = true → m1.fingerprint ≠ m2.fingerprint

/- ## Frontend API client: `pollJobStatus` (src/frontend/apiClient/client.ts) -/

/-- What one tick of the `pollJobStatus` loop does with the job status it
just fetched. -/
inductive PollAction
  | resolveMedia
  | rejectError
  | continuePolling
  deriving DecidableEq, Repr

/-- Embedding of the decision made by each `poll` tick in `pollJobStatus`
(client.ts lines 224-235): if the status is `completed` or `error` the
interval is cleared and the promise settles (rejecting on `error`,
resolving with the media item otherwise); any other status leaves the
interval running, so polling continues. -/
def pollJobStatusStep (status : String) : PollAction :=
  if status == "completed" || status == "error" then
    if status == "error" then .rejectError else .resolveMedia
  else .continuePolling

/-- Modelled from the spec: the terminal statuses of the Job state machine
(spec section 4.5): `completed`, `duplicate` and `error`. -/
def specTerminalStatuses : List String := ["completed", "duplicate", "error"]

/- ## Frontend WebSocket status service (src/frontend/apiClient/client.ts) -/

/-- Status union of the `JobStatusUpdate` interface (client.ts line 252):
`'pending' | 'processing' | 'completed' | 'failed'`. -/
inductive UpdateStatus
  | pending
  | processing
  | completed
  | failed
  deriving DecidableEq, Repr

/-- A status update as delivered to subscribers, with exactly the fields
of the `JobStatusUpdate` interface: `job_id` and `status` required,
`progress`, `stage`, `error` and `result` optional.  The interface has no
`media_id` field. -/
structure JobStatusUpdate where
  job_id : String
  status : UpdateStatus
  progress : Option Nat
  stage : Option String
  error : Option String
  result : Option String
  deriving DecidableEq, Repr

/-- The field names declared by the `JobStatusUpdate` interface, in
source order. -/
def jobStatusUpdateFields : List String :=
  ["job_id", "status", "progress", "stage", "error", "result"]

/-- The non-optional field names of `JobStatusUpdate` (those declared
without `?`). -/
def jobStatusUpdateRequiredFields : List String := ["job_id", "status"]

/-- The optional field names of `JobStatusUpdate` (those declared
with `?`). -/
def jobStatusUpdateOptionalFields : List String :=
  ["progress", "stage", "error", "result"]

/-- Whether an update reports a terminal outcome in the code's status
union (`completed` or `failed`). -/
def UpdateStatus.isTerminal : UpdateStatus → Bool
  | .completed => true
  | .failed => true
  | _ => false

namespace WebSocketService

/-- The `callbacks: Map<string, StatusCallback[]>` field, with callbacks
identified by opaque ids. -/
abbrev Callbacks := List (String × List Nat)

/-- Lookup of `callbacks.get(jobId)`. -/
def getCallbacks (cbs : Callbacks) (jobId : String) : Option (List Nat) :=
  (cbs.find? fun p => p.1 == jobId).map fun p => p.2

/-- `subscribe(jobId, callback)` (client.ts lines 323-333): create an
empty entry when the job id is absent, then push the callback onto the
entry.  The trailing send of a subscribe frame does not touch the map. -/
def subscribe (cbs : Callbacks) (jobId : String) (cb : Nat) : Callbacks :=
  let cbs' := if cbs.any (fun p => p.1 == jobId) then cbs else cbs ++ [(jobId, [])]
  cbs'.map fun p => if p.1 == jobId then (p.1, p.2 ++ [cb]) else p

/-- `notifyCallbacks(update)` (client.ts lines 353-358): look up the
callbacks registered for `update.job_id` and invoke each of them with the
update; the returned list records the invocations in order.  The
callbacks map itself is not modified. -/
def notifyCallbacks (cbs : Callbacks) (u : JobStatusUpdate) : List (Nat × JobStatusUpdate) :=
  match getCallbacks cbs u.job_id with
  | some l => l.map fun c => (c, u)
  | none => []

/-- `unsubscribe(jobId)` without a callback argument: delete the whole
entry for the job id. -/
def unsubscribeAll (cbs : Callbacks) (jobId : String) : Callbacks :=
  cbs.filter fun p => p.1 != jobId

/-- Remove the first occurrence of a callback, as `splice(index, 1)` does
after `indexOf`. -/
def removeFirst : List Nat → Nat → List Nat
  | [], _ => []
  | x :: xs, cb => if x == cb then xs else x :: removeFirst xs cb

/-- `unsubscribe(jobId, callback)`: remove the first occurrence of the
callback from the entry, and delete the entry when it becomes empty. -/
def unsubscribeCb (cbs : Callbacks) (jobId : String) (cb : Nat) : Callbacks :=
  (cbs.map fun p => if p.1 == jobId then (p.1, removeFirst p.2 cb) else p).filter
    fun p => p.1 != jobId || !p.2.isEmpty

/-- Handling of a sequence of incoming `onmessage` frames: each parsed
update is passed to `notifyCallbacks`; message handling never alters the
callbacks map, so every frame is delivered against the same map. -/
def deliverAll (cbs : Callbacks) : List JobStatusUpdate → List (Nat × JobStatusUpdate)
  | [] => []
  | u :: rest => notifyCallbacks cbs u ++ deliverAll cbs rest

/-- `maxReconnectAttempts` (client.ts line 266). -/
def maxReconnectAttempts : Nat := 5

/-- The reconnection bookkeeping of the service: `reconnectTimeout` and
`reconnectAttempts` (client.ts lines 264-265). -/
structure WSState where
  reconnectTimeout : Nat
  reconnectAttempts : Nat
  deriving DecidableEq, Repr

/-- Field initialisers of the service: timeout 1000 ms, 0 attempts. -/
def initialWSState : WSState := { reconnectTimeout := 1000, reconnectAttempts := 0 }

/-- `attemptReconnect()` (client.ts lines 307-321): when the attempt
counter has reached the maximum, no reconnection is scheduled (`none`);
otherwise the counter is incremented, a connect is scheduled after the
current `reconnectTimeout`, and the timeout is doubled with a 30000 ms
cap.  The result carries the scheduled delay and the state after the
call. -/
def attemptReconnect (s : WSState) : Option (Nat × WSState) :=
  if s.reconnectAttempts ≥ maxReconnectAttempts then none
  else some (s.reconnectTimeout, { reconnectTimeout := min (s.reconnectTimeout * 2) 30000, reconnectAttempts := s.reconnectAttempts + 1 })

/-- `ws.onopen` (client.ts lines 278-282): a successful connection resets
the attempt counter to 0 and the timeout to 1000 ms. -/
def onOpen (_s : WSState) : WSState := { reconnectTimeout := 1000, reconnectAttempts := 0 }

/-- The delays of the successive reconnection attempts scheduled from a
given state when every connect keeps failing, until `attemptReconnect`
declines to schedule. -/
def reconnectDelaysAux : Nat → WSState → List Nat
  | 0, _ => []
  | fuel + 1, s =>
    match attemptReconnect s with
    | none => []
    | some (d, s') => d :: reconnectDelaysAux fuel s'

/-- All delays scheduled from a state during an uninterrupted run of
failing reconnections. -/
def reconnectDelays (s : WSState) : List Nat :=
  reconnectDelaysAux maxReconnectAttempts s

end WebSocketService

/- ## Database migration 002_add_subscription_support.sql -/

/-- A row of `media_items` with the columns of the schema in
ARCHITECTURE.md plus the `origin` (NOT NULL, default `'manual'`) and
`subscription_id` columns added by migration 002. -/
structure MediaItemRow where
  id : Nat
  title : String
  type : String
  source_type : String
  source_url : Option String
  duration : Option Nat
  audio_hash : Option String
  raw_text : Option String
  transcript : Option String
  ai_summary : Option String
  tags : List String
  embedding : Option (List Int)
  status : Option String
  created_at : Nat
  imported_at : Option Nat
  minio_path : Option String
  origin : String
  subscription_id : Option Nat
  deriving DecidableEq, Repr

/-- Database state relevant to the foreign key: the subscription ids and
the `media_items` rows. -/
structure Db where
  subscriptions : List Nat
  media_items : List MediaItemRow
  deriving DecidableEq, Repr

/-- The action of the `fk_media_items_subscription` constraint
(`ON DELETE SET NULL`) on one row when subscription `sid` is deleted:
a row referencing `sid` has its `subscription_id` set to NULL, any other
row is untouched. -/
def applySetNull (sid : Nat) (r : MediaItemRow) : MediaItemRow :=
  if r.subscription_id = some sid then { r with subscription_id := none } else r

/-- Deleting a subscription row: the row leaves `subscriptions`, and the
`ON DELETE SET NULL` foreign key rewrites the referencing `media_items`
rows in place.  No `media_items` row is deleted. -/
def deleteSubscription (db : Db) (sid : Nat) : Db :=
  { subscriptions := db.subscriptions.filter fun i => i != sid,
    media_items := db.media_items.map (applySetNull sid) }

/- ## General lemmas about the retry loop and the dedup gate -/

/-- The retry loop never uses more attempts than the configured fuel plus
what was already used. -/
theorem runWithRetriesAux_attempts_le (f : Nat → StageResult α) :
    ∀ fuel used, (runWithRetriesAux f fuel used).attempts ≤ used + fuel := by
  intro fuel
  induction fuel with
  | zero => intro used; simp [runWithRetriesAux, RetryOutcome.attempts]
  | succ n ih =>
    intro used
    simp only [runWithRetriesAux]
    cases f used with
    | ok v => dsimp only [RetryOutcome.attempts]; omega
    | permanent => dsimp only [RetryOutcome.attempts]; omega
    | transient =>
      dsimp only
      have := ih (used + 1)
      omega

/-- A stage run consumes at most `maxAttempts` attempts. -/
theorem runWithRetries_attempts_le (maxAttempts : Nat) (f : Nat → StageResult α) :
    (runWithRetries maxAttempts f).attempts ≤ maxAttempts := by
  have := runWithRetriesAux_attempts_le f maxAttempts 0
  simpa [runWithRetries] using this

/-- An always-transient collaborator exhausts the whole fuel: the run
fails after exactly `used + fuel` calls. -/
theorem runWithRetriesAux_always_transient (f : Nat → StageResult α)
    (hf : ∀ n, f n = .transient) :
    ∀ fuel used, runWithRetriesAux f fuel used = .failed (used + fuel) := by
  intro fuel
  induction fuel with
  | zero => intro used; simp [runWithRetriesAux]
  | succ n ih =>
    intro used
    simp only [runWithRetriesAux, hf]
    rw [ih (used + 1)]
    congr 1
    omega

/-- An always-transient collaborator under the recommended maximum fails
after exactly 3 attempts. -/
theorem runWithRetries_always_transient (f : Nat → StageResult α)
    (hf : ∀ n, f n = .transient) :
    runWithRetries maxStageAttempts f = .failed 3 := by
  have := runWithRetriesAux_always_transient f hf maxStageAttempts 0
  simpa [runWithRetries, maxStageAttempts] using this

/-- When the dedup lookup finds no canonical owner, every store item that
carries the fingerprint under a different id is an error or duplicate
item. -/
theorem findCanonical_none_charac (store : List MediaItem) (fp selfId : Nat)
    (h : findCanonical store fp selfId = none) :
    ∀ m ∈ store, m.fingerprint = some fp → m.id ≠ selfId →
      m.status = .error ∨ m.status = .duplicate := by
  intro m hm hfp hid
  have hpred := List.find?_eq_none.mp h m hm
  simp only [Bool.and_eq_true, beq_iff_eq, bne_iff_ne, ne_eq, not_and] at hpred
  by_contra hcon
  push_neg at hcon
  exact hpred ⟨⟨hfp, hid⟩, hcon.1⟩ hcon.2

/-- Appending an item that is an error, a duplicate, or a fresh canonical
owner of a fingerprint nobody live owns, preserves uniqueness of
fingerprints across live (non-duplicate, non-error) items. -/
theorem fingerprintUniqueLive_append (store : List MediaItem) (x : MediaItem)
    (h : fingerprintUniqueLive store)
    (hx : x.status = .error ∨ x.status = .duplicate ∨
      ∃ fp, x.fingerprint = some fp ∧ findCanonical store fp x.id = none) :
    fingerprintUniqueLive (store ++ [x]) := by
  intro m1 hm1 m2 hm2 hd1 hd2 he1 he2 hid hsome
  simp only [List.mem_append, List.mem_singleton] at hm1 hm2
  rcases hm1 with hm1 | rfl <;> rcases hm2 with hm2 | rfl
  · exact h m1 hm1 m2 hm2 hd1 hd2 he1 he2 hid hsome
  · rcases hx with hx | hx | ⟨fp, hfp, hfind⟩
    · exact absurd hx he2
    · exact absurd hx hd2
    · intro heq
      have h1 : m1.fingerprint = some fp := by rw [heq, hfp]
      have := findCanonical_none_charac store fp m2.id hfind m1 hm1 h1 hid
      tauto
  · rcases hx with hx | hx | ⟨fp, hfp, hfind⟩
    · exact absurd hx he1
    · exact absurd hx hd1
    · intro heq
      have h2 : m2.fingerprint = some fp := by rw [← heq, hfp]
      have := findCanonical_none_charac store fp m1.id hfind m2 hm2 h2 (Ne.symm hid)
      tauto
  · exact absurd rfl hid

/- ## Branch equations for the pipeline -/

/-- Pipeline outcome when extraction exhausts its retries. -/
theorem runPipeline_eq_extract_failed (store : List MediaItem) (c : Collab)
    (req : MediaRequest) (aE : Nat)
    (hE : runWithRetries maxStageAttempts c.extract = .failed aE) :
    runPipeline store c req =
      ⟨store ++ [{ newMediaItem req with status := .error }], .error, [.extract],
        [(.extract, aE)], { newMediaItem req with status := .error }⟩ := by
  simp only [runPipeline, hE]

/-- Pipeline outcome when the dedup gate finds a canonical owner. -/
theorem runPipeline_eq_dup (store : List MediaItem) (c : Collab) (req : MediaRequest)
    (blob : BlobInfo) (aE : Nat) (canon : MediaItem)
    (hE : runWithRetries maxStageAttempts c.extract = .success blob aE)
    (hD : findCanonical store (c.fingerprintOf blob.blobKey) req.id = some canon) :
    runPipeline store c req =
      ⟨store ++ [{ newMediaItem req with fingerprint := some (c.fingerprintOf blob.blobKey), status := .duplicate, duplicateOf := some canon.id }],
        .duplicate, [.extract, .dedupCheck], [(.extract, aE), (.dedupCheck, 1)],
        { newMediaItem req with fingerprint := some (c.fingerprintOf blob.blobKey), status := .duplicate, duplicateOf := some canon.id }⟩ := by
  simp only [runPipeline, hE, hD]

/-- Pipeline outcome when transcription exhausts its retries after a
negative dedup check. -/
theorem runPipeline_eq_transcribe_failed (store : List MediaItem) (c : Collab)
    (req : MediaRequest) (blob : BlobInfo) (aE aT : Nat)
    (hE : runWithRetries maxStageAttempts c.extract = .success blob aE)
    (hD : findCanonical store (c.fingerprintOf blob.blobKey) req.id = none)
    (hT : runWithRetries maxStageAttempts c.transcribe = .failed aT) :
    runPipeline store c req =
      ⟨store ++ [{ newMediaItem req with fingerprint := some (c.fingerprintOf blob.blobKey), status := .error }],
        .error, [.extract, .dedupCheck, .transcribe],
        [(.extract, aE), (.dedupCheck, 1), (.transcribe, aT)],
        { newMediaItem req with fingerprint := some (c.fingerprintOf blob.blobKey), status := .error }⟩ := by
  simp only [runPipeline, hE, hD, hT]

/-- Pipeline outcome when extraction, dedup and transcription all pass:
the Job completes, with enrichment and embedding contributing their
outputs or degrading gracefully. -/
theorem runPipeline_eq_completed (store : List MediaItem) (c : Collab)
    (req : MediaRequest) (blob : BlobInfo) (aE : Nat) (text : String) (aT : Nat)
    (hE : runWithRetries maxStageAttempts c.extract = .success blob aE)
    (hD : findCanonical store (c.fingerprintOf blob.blobKey) req.id = none)
    (hT : runWithRetries maxStageAttempts c.transcribe = .success text aT) :
    runPipeline store c req =
      ⟨store ++ [{ newMediaItem req with fingerprint := some (c.fingerprintOf blob.blobKey), transcript := text, summary := enrichSummary (runWithRetries maxStageAttempts c.enrich), tags := enrichTags (runWithRetries maxStageAttempts c.enrich), embedding := embedVec (runWithRetries maxStageAttempts c.embed), status := .completed }],
        .completed, [.extract, .dedupCheck, .transcribe, .enrich, .embed],
        [(.extract, aE), (.dedupCheck, 1), (.transcribe, aT),
          (.enrich, (runWithRetries maxStageAttempts c.enrich).attempts),
          (.embed, (runWithRetries maxStageAttempts c.embed).attempts)],
        { newMediaItem req with fingerprint := some (c.fingerprintOf blob.blobKey), transcript := text, summary := enrichSummary (runWithRetries maxStageAttempts c.enrich), tags := enrichTags (runWithRetries maxStageAttempts c.enrich), embedding := embedVec (runWithRetries maxStageAttempts c.embed), status := .completed }⟩ := by
  simp only [runPipeline, hE, hD, hT]

/- ## Concrete collaborators and stores used as witnesses -/

/-- Collaborators whose transcriber fails transiently on every call; all
other stages succeed. -/
def collabTranscribeDown : Collab where
  extract := fun _ => .ok ⟨5, 60, "audio"⟩
  fingerprintOf := fun _ => 7
  transcribe := fun _ => .transient
  enrich := fun _ => .ok ("sum", ["tag"])
  embed := fun _ => .ok [1, 2]

/-- Collaborators for which every stage succeeds on the first call. -/
def collabAllOk : Collab where
  extract := fun _ => .ok ⟨5, 60, "audio"⟩
  fingerprintOf := fun _ => 7
  transcribe := fun _ => .ok "hello world"
  enrich := fun _ => .ok ("sum", ["tag"])
  embed := fun _ => .ok [1, 2]

/-- Store after a first submission whose transcription failed: it holds
one `error` item that already carries fingerprint 7. -/
def storeAfterErrorRun : List MediaItem :=
  (runPipeline [] collabTranscribeDown ⟨1, "first", 11⟩).store

/-- Store after a second submission of content with the same fingerprint,
this time fully successful. -/
def storeAfterSecondRun : List MediaItem :=
  (runPipeline storeAfterErrorRun collabAllOk ⟨2, "second", 12⟩).store

/-- Claim C1 counterexample: after a failed run leaves an `error` item
owning fingerprint 7, a second submission of the same content is not
resolved as a duplicate (the dedup gate ignores error items), so the
store holds two distinct non-duplicate items with the same fingerprint,
violating the invariant as stated. -/
theorem fingerprint_unique_cex :
    storeAfterSecondRun.map (fun m => (m.id, m.fingerprint, m.status)) =
      [(1, some 7, MStatus.error), (2, some 7, MStatus.completed)] ∧
    ¬ fingerprintUnique storeAfterSecondRun := by
  constructor
  · rfl
  · unfold fingerprintUnique
    decide

/-- Claim C1 (amended): every pipeline run preserves uniqueness of
fingerprints across live (non-duplicate, non-error) items: a second item
computing a fingerprint owned by a live item is resolved as a duplicate
reference to the canonical item, never stored as a second live canonical
record.  Items that previously ended in `error` may share a fingerprint
with a later canonical item, because the dedup gate skips them. -/
theorem runPipeline_preserves_fingerprintUniqueLive
    (store : List MediaItem) (c : Collab) (req : MediaRequest)
    (h : fingerprintUniqueLive store) :
    fingerprintUniqueLive (runPipeline store c req).store := by
  cases hE : runWithRetries maxStageAttempts c.extract with
  | failed aE =>
    rw [runPipeline_eq_extract_failed store c req aE hE]
    exact fingerprintUniqueLive_append store _ h (Or.inl rfl)
  | success blob aE =>
    cases hD : findCanonical store (c.fingerprintOf blob.blobKey) req.id with
    | some canon =>
      rw [runPipeline_eq_dup store c req blob aE canon hE hD]
      exact fingerprintUniqueLive_append store _ h (Or.inr (Or.inl rfl))
    | none =>
      cases hT : runWithRetries maxStageAttempts c.transcribe with
      | failed aT =>
        rw [runPipeline_eq_transcribe_failed store c req blob aE aT hE hD hT]
        exact fingerprintUniqueLive_append store _ h (Or.inr (Or.inr ⟨_, rfl, hD⟩))
      | success text aT =>
        rw [runPipeline_eq_completed store c req blob aE text aT hE hD hT]
        exact fingerprintUniqueLive_append store _ h (Or.inr (Or.inr ⟨_, rfl, hD⟩))

/-- Witness for the amended C1 theorem at a concrete input. -/
theorem runPipeline_preserves_fingerprintUniqueLive_witness :
    fingerprintUniqueLive (runPipeline [] collabAllOk ⟨1, "w", 3⟩).store :=
  runPipeline_preserves_fingerprintUniqueLive [] collabAllOk ⟨1, "w", 3⟩
    (by intro m1 hm1; cases hm1)

/- ## Claim C2: dedup short-circuit -/

/-- Claim C2: when the dedup check finds that a different, non-error
MediaItem already owns the computed fingerprint, the pipeline marks the
current MediaItem `duplicate`, links it to the canonical item, terminates
the Job in status `duplicate`, and invokes none of the Transcribe, Enrich
or Embed stages. -/
theorem dedup_short_circuit (store : List MediaItem) (c : Collab) (req : MediaRequest)
    (blob : BlobInfo) (aE : Nat) (canon : MediaItem)
    (hE : runWithRetries maxStageAttempts c.extract = .success blob aE)
    (hD : findCanonical store (c.fingerprintOf blob.blobKey) req.id = some canon) :
    (runPipeline store c req).jobStatus = .duplicate ∧
    (runPipeline store c req).item.status = .duplicate ∧
    (runPipeline store c req).item.duplicateOf = some canon.id ∧
    (runPipeline store c req).invoked = [.extract, .dedupCheck] ∧
    StageName.transcribe ∉ (runPipeline store c req).invoked ∧
    StageName.enrich ∉ (runPipeline store c req).invoked ∧
    StageName.embed ∉ (runPipeline store c req).invoked ∧
    (runPipeline store c req).store = store ++ [(runPipeline store c req).item] := by
  rw [runPipeline_eq_dup store c req blob aE canon hE hD]
  refine ⟨rfl, rfl, rfl, rfl, ?_, ?_, ?_, rfl⟩ <;> simp

/-- The canonical item used by the C2 witness: a completed item owning
fingerprint 7. -/
def canonicalItem : MediaItem :=
  { id := 1, fingerprint := some 7, transcript := "hello", summary := "s",
    tags := [], embedding := none, status := .completed, duplicateOf := none }

/-- Witness for the C2 theorem at a concrete input. -/
theorem dedup_short_circuit_witness :
    (runPipeline [canonicalItem] collabAllOk ⟨2, "again", 12⟩).jobStatus = .duplicate ∧
    (runPipeline [canonicalItem] collabAllOk ⟨2, "again", 12⟩).item.status = .duplicate ∧
    (runPipeline [canonicalItem] collabAllOk ⟨2, "again", 12⟩).item.duplicateOf = some canonicalItem.id ∧
    (runPipeline [canonicalItem] collabAllOk ⟨2, "again", 12⟩).invoked = [.extract, .dedupCheck] ∧
    StageName.transcribe ∉ (runPipeline [canonicalItem] collabAllOk ⟨2, "again", 12⟩).invoked ∧
    StageName.enrich ∉ (runPipeline [canonicalItem] collabAllOk ⟨2, "again", 12⟩).invoked ∧
    StageName.embed ∉ (runPipeline [canonicalItem] collabAllOk ⟨2, "again", 12⟩).invoked ∧
    (runPipeline [canonicalItem] collabAllOk ⟨2, "again", 12⟩).store =
      [canonicalItem] ++ [(runPipeline [canonicalItem] collabAllOk ⟨2, "again", 12⟩).item] :=
  dedup_short_circuit [canonicalItem] collabAllOk ⟨2, "again", 12⟩ ⟨5, 60, "audio"⟩ 1
    canonicalItem (by rfl) (by rfl)

/- ## Claim C3: bounded retries -/

/-- Collaborators whose enricher fails transiently on every call; all
other stages succeed. -/
def collabEnrichDown : Collab where
  extract := fun _ => .ok ⟨5, 60, "audio"⟩
  fingerprintOf := fun _ => 7
  transcribe := fun _ => .ok "hello world"
  enrich := fun _ => .transient
  embed := fun _ => .ok [1, 2]

/-- Claim C3 counterexample: the Enrich stage is configured with the same
maximum of 3 transient retries, and a collaborator failing transiently on
every call exhausts exactly 3 attempts, yet the Job terminates `completed`
rather than `error`: the spec's own policy excepts Enrich/Embed from
error propagation (graceful degradation). -/
theorem bounded_retries_cex :
    (runPipeline [] collabEnrichDown ⟨1, "e", 11⟩).jobStatus = .completed ∧
    (runPipeline [] collabEnrichDown ⟨1, "e", 11⟩).jobStatus ≠ .error ∧
    (runPipeline [] collabEnrichDown ⟨1, "e", 11⟩).attempts =
      [(.extract, 1), (.dedupCheck, 1), (.transcribe, 1), (.enrich, 3), (.embed, 1)] := by
  refine ⟨rfl, by decide, rfl⟩

/-- Claim C3 (amended): a stage with maximum 3 transient retries whose
collaborator fails transiently on every call consumes exactly 3 attempts
and never loops; for the load-bearing stages (Extract, Transcribe) the
Job then terminates in status `error`, while Enrich/Embed degrade
gracefully per the policy's stated exception. -/
theorem bounded_retries (store : List MediaItem) (c : Collab) (req : MediaRequest) :
    ((∀ n, c.extract n = .transient) →
      (runPipeline store c req).jobStatus = .error ∧
      (StageName.extract, 3) ∈ (runPipeline store c req).attempts) ∧
    (∀ blob aE, runWithRetries maxStageAttempts c.extract = .success blob aE →
      findCanonical store (c.fingerprintOf blob.blobKey) req.id = none →
      (∀ n, c.transcribe n = .transient) →
      (runPipeline store c req).jobStatus = .error ∧
      (StageName.transcribe, 3) ∈ (runPipeline store c req).attempts) ∧
    (∀ (α : Type) (f : Nat → StageResult α), (∀ n, f n = .transient) →
      runWithRetries maxStageAttempts f = .failed 3) ∧
    (∀ (α : Type) (f : Nat → StageResult α),
      (runWithRetries maxStageAttempts f).attempts ≤ maxStageAttempts) := by
  refine ⟨?_, ?_, ?_, ?_⟩
  · intro hext
    have h3 := runWithRetries_always_transient c.extract hext
    rw [runPipeline_eq_extract_failed store c req 3 h3]
    exact ⟨rfl, by simp⟩
  · intro blob aE hE hD htr
    have h3 := runWithRetries_always_transient c.transcribe htr
    rw [runPipeline_eq_transcribe_failed store c req blob aE 3 hE hD h3]
    exact ⟨rfl, by simp⟩
  · intro α f hf
    exact runWithRetries_always_transient f hf
  · intro α f
    exact runWithRetries_attempts_le maxStageAttempts f

/-- Witness for the amended C3 theorem at a concrete input: the
always-transient transcriber errors the Job with 3 recorded attempts. -/
theorem bounded_retries_witness :
    (runPipeline [] collabTranscribeDown ⟨1, "first", 11⟩).jobStatus = .error ∧
    (StageName.transcribe, 3) ∈ (runPipeline [] collabTranscribeDown ⟨1, "first", 11⟩).attempts :=
  (bounded_retries [] collabTranscribeDown ⟨1, "first", 11⟩).2.1 ⟨5, 60, "audio"⟩ 1
    rfl rfl (fun _ => rfl)

/- ## Claim C4: graceful degradation of Enrich -/

/-- Claim C4: a Job whose Enrich stage fails after its retries are
exhausted (or permanently) still reaches terminal status `completed`,
with empty summary and tag set and the non-empty transcript kept;
enrichment failure never fails the whole Job. -/
theorem enrich_degrades_gracefully (store : List MediaItem) (c : Collab)
    (req : MediaRequest) (blob : BlobInfo) (aE : Nat) (text : String) (aT aEn : Nat)
    (hE : runWithRetries maxStageAttempts c.extract = .success blob aE)
    (hD : findCanonical store (c.fingerprintOf blob.blobKey) req.id = none)
    (hT : runWithRetries maxStageAttempts c.transcribe = .success text aT)
    (hText : text ≠ "")
    (hEn : runWithRetries maxStageAttempts c.enrich = .failed aEn) :
    (runPipeline store c req).jobStatus = .completed ∧
    (runPipeline store c req).jobStatus ≠ .error ∧
    (runPipeline store c req).item.status = .completed ∧
    (runPipeline store c req).item.summary = "" ∧
    (runPipeline store c req).item.tags = [] ∧
    (runPipeline store c req).item.transcript = text ∧
    (runPipeline store c req).item.transcript ≠ "" := by
  rw [runPipeline_eq_completed store c req blob aE text aT hE hD hT]
  refine ⟨rfl, by simp, rfl, ?_, ?_, rfl, hText⟩
  · show enrichSummary (runWithRetries maxStageAttempts c.enrich) = ""
    rw [hEn]
    rfl
  · show enrichTags (runWithRetries maxStageAttempts c.enrich) = []
    rw [hEn]
    rfl

/-- Collaborators whose enricher fails permanently on the first call; all
other stages succeed. -/
def collabEnrichPermanentDown : Collab where
  extract := fun _ => .ok ⟨5, 60, "audio"⟩
  fingerprintOf := fun _ => 7
  transcribe := fun _ => .ok "hello world"
  enrich := fun _ => .permanent
  embed := fun _ => .ok [1, 2]

/-- Witness for the C4 theorem at a concrete input. -/
theorem enrich_degrades_gracefully_witness :
    (runPipeline [] collabEnrichPermanentDown ⟨1, "g", 11⟩).jobStatus = .completed ∧
    (runPipeline [] collabEnrichPermanentDown ⟨1, "g", 11⟩).jobStatus ≠ .error ∧
    (runPipeline [] collabEnrichPermanentDown ⟨1, "g", 11⟩).item.status = .completed ∧
    (runPipeline [] collabEnrichPermanentDown ⟨1, "g", 11⟩).item.summary = "" ∧
    (runPipeline [] collabEnrichPermanentDown ⟨1, "g", 11⟩).item.tags = [] ∧
    (runPipeline [] collabEnrichPermanentDown ⟨1, "g", 11⟩).item.transcript = "hello world" ∧
    (runPipeline [] collabEnrichPermanentDown ⟨1, "g", 11⟩).item.transcript ≠ "" :=
  enrich_degrades_gracefully [] collabEnrichPermanentDown ⟨1, "g", 11⟩ ⟨5, 60, "audio"⟩ 1
    "hello world" 1 1 rfl rfl rfl (by decide) rfl

/- ## Claim C5: pollJobStatus and the terminal statuses -/

/-- Claim C5: the terminal-status check of `pollJobStatus` settles on
`completed` (resolve) and `error` (reject) but not on `duplicate`, even
though `duplicate` is a terminal status of the Job state machine: a job
that ended as a duplicate leaves the poll loop running forever. -/
theorem pollJobStatus_misses_duplicate :
    pollJobStatusStep "duplicate" = .continuePolling ∧
    "duplicate" ∈ specTerminalStatuses ∧
    pollJobStatusStep "completed" = .resolveMedia ∧
    pollJobStatusStep "error" = .rejectError := by
  decide

/- ## Claim C6: fields of a delivered status event -/

/-- Claim C6 counterexample: the `JobStatusUpdate` interface that every
delivered event instantiates has no `media_id` field. -/
theorem statusEvent_media_id_cex : "media_id" ∉ jobStatusUpdateFields := by
  decide

/-- Claim C6 (amended): every delivered status event carries `job_id` and
`status` as required fields; `progress`, `stage`, `error` and `result`
are optional; no `media_id` field exists, and what a subscriber receives
is exactly the incoming update with these fields. -/
theorem statusEvent_fields :
    "job_id" ∈ jobStatusUpdateRequiredFields ∧
    "status" ∈ jobStatusUpdateRequiredFields ∧
    "progress" ∈ jobStatusUpdateOptionalFields ∧
    "stage" ∈ jobStatusUpdateOptionalFields ∧
    "error" ∈ jobStatusUpdateOptionalFields ∧
    "result" ∈ jobStatusUpdateOptionalFields ∧
    "media_id" ∉ jobStatusUpdateFields ∧
    jobStatusUpdateFields = jobStatusUpdateRequiredFields ++ jobStatusUpdateOptionalFields ∧
    ∀ (cbs : WebSocketService.Callbacks) (u : JobStatusUpdate) (p : Nat × JobStatusUpdate),
      p ∈ WebSocketService.notifyCallbacks cbs u → p.2 = u := by
  refine ⟨by decide, by decide, by decide, by decide, by decide, by decide, by decide,
    by decide, ?_⟩
  intro cbs u p hp
  unfold WebSocketService.notifyCallbacks at hp
  cases hcb : WebSocketService.getCallbacks cbs u.job_id with
  | none => rw [hcb] at hp; cases hp
  | some l =>
    rw [hcb] at hp
    simp only [List.mem_map] at hp
    obtain ⟨c, _, hceq⟩ := hp
    rw [← hceq]

/-- A mid-pipeline update used by concrete status-delivery witnesses. -/
def updProcessing : JobStatusUpdate :=
  { job_id := "j1", status := .processing, progress := some 40,
    stage := some "transcribing", error := none, result := none }

/-- Witness for the amended C6 theorem at a concrete delivered event. -/
theorem statusEvent_fields_witness :
    ((0 : Nat), updProcessing).2 = updProcessing :=
  statusEvent_fields.2.2.2.2.2.2.2.2 (WebSocketService.subscribe [] "j1" 0) updProcessing
    (0, updProcessing) (by decide)

/- ## Claim C7: stream termination at terminal status -/

/-- A terminal update for job `j1`. -/
def updDone : JobStatusUpdate :=
  { job_id := "j1", status := .completed, progress := some 100,
    stage := some "finalize", error := none, result := none }

/-- A later update for job `j1`, arriving after the terminal one. -/
def updLate : JobStatusUpdate :=
  { job_id := "j1", status := .processing, progress := some 50,
    stage := some "transcribing", error := none, result := none }

/-- Claim C7 counterexample: a subscriber registered for `j1` receives
`updLate` even though the terminal `updDone` was already delivered to it:
nothing ends the stream at a terminal event, the callback stays
registered and keeps receiving. -/
theorem subscribe_stream_cex :
    updDone.status.isTerminal = true ∧
    WebSocketService.deliverAll (WebSocketService.subscribe [] "j1" 0) [updDone, updLate] =
      [(0, updDone), (0, updLate)] := by
  constructor
  · rfl
  · rfl

/-- `find?` for a key never succeeds on a list from which that key was
filtered out. -/
theorem find_filter_ne (cbs : WebSocketService.Callbacks) (j : String) :
    (cbs.filter fun p => p.1 != j).find? (fun p => p.1 == j) = none := by
  induction cbs with
  | nil => rfl
  | cons hd tl ih =>
    by_cases h : hd.1 = j
    · simp [List.filter_cons, h, ih]
    · simp [List.filter_cons, h, List.find?_cons, ih]

/-- Claim C7 (amended): the subscription stream does not end at a
terminal event: a registered callback receives exactly the incoming
events whose `job_id` matches its registration, regardless of any
previously delivered terminal event, until it is removed by
`unsubscribe` (after which nothing is delivered for that job id). -/
theorem subscribe_stream_amended :
    (∀ (cbs : WebSocketService.Callbacks) (u : JobStatusUpdate) (cb : Nat) (u' : JobStatusUpdate),
      (cb, u') ∈ WebSocketService.notifyCallbacks cbs u ↔
        u' = u ∧ cb ∈ (WebSocketService.getCallbacks cbs u.job_id).getD []) ∧
    (∀ (cbs : WebSocketService.Callbacks) (j : String) (u : JobStatusUpdate),
      u.job_id = j →
        WebSocketService.notifyCallbacks (WebSocketService.unsubscribeAll cbs j) u = []) := by
  constructor
  · intro cbs u cb u'
    unfold WebSocketService.notifyCallbacks
    cases hcb : WebSocketService.getCallbacks cbs u.job_id with
    | none => simp
    | some l =>
      simp only [List.mem_map, Option.getD_some, Prod.mk.injEq]
      constructor
      · rintro ⟨c, hc, rfl, rfl⟩
        exact ⟨rfl, hc⟩
      · rintro ⟨rfl, hcb2⟩
        exact ⟨cb, hcb2, rfl, rfl⟩
  · intro cbs j u hj
    unfold WebSocketService.notifyCallbacks WebSocketService.getCallbacks
      WebSocketService.unsubscribeAll
    rw [hj, find_filter_ne cbs j]
    rfl

/-- Witness for the amended C7 theorem: after `unsubscribe("j1")` the
late update is no longer delivered. -/
theorem subscribe_stream_amended_witness :
    WebSocketService.notifyCallbacks
      (WebSocketService.unsubscribeAll (WebSocketService.subscribe [] "j1" 0) "j1") updLate = [] :=
  subscribe_stream_amended.2 (WebSocketService.subscribe [] "j1" 0) "j1" updLate rfl

/- ## Claim C8: fan-out to all subscribers -/

/-- Claim C8: `notifyCallbacks` delivers one copy of the incoming event
to each of the callbacks registered for its job id: the number of
deliveries equals the number of registered callbacks, every registered
callback receives its own copy, and every delivered copy is the full
event; delivery to one subscriber never consumes the event for
another. -/
theorem fanout_all_subscribers (cbs : WebSocketService.Callbacks) (u : JobStatusUpdate) :
    (WebSocketService.notifyCallbacks cbs u).length =
      ((WebSocketService.getCallbacks cbs u.job_id).getD []).length ∧
    (∀ cb ∈ (WebSocketService.getCallbacks cbs u.job_id).getD [],
      (cb, u) ∈ WebSocketService.notifyCallbacks cbs u) ∧
    ∀ p ∈ WebSocketService.notifyCallbacks cbs u, p.2 = u := by
  unfold WebSocketService.notifyCallbacks
  cases hcb : WebSocketService.getCallbacks cbs u.job_id with
  | none => simp
  | some l =>
    refine ⟨by simp, ?_, ?_⟩
    · intro cb hcb2
      simp only [Option.getD_some] at hcb2
      exact List.mem_map.mpr ⟨cb, hcb2, rfl⟩
    · intro p hp
      obtain ⟨c, _, hceq⟩ := List.mem_map.mp hp
      rw [← hceq]

/-- Witness for the C8 theorem: with two subscribers registered for
`j1`, the second one receives its own copy of the event. -/
theorem fanout_all_subscribers_witness :
    ((1 : Nat), updLate) ∈
      WebSocketService.notifyCallbacks
        (WebSocketService.subscribe (WebSocketService.subscribe [] "j1" 0) "j1" 1) updLate :=
  (fanout_all_subscribers
    (WebSocketService.subscribe (WebSocketService.subscribe [] "j1" 0) "j1" 1) updLate).2.1
    1 (by decide)

/- ## Claim C9: bounded reconnection with exponential backoff -/

/-- The number of delays scheduled by an uninterrupted reconnection run
is bounded by its fuel. -/
theorem reconnectDelaysAux_length_le :
    ∀ (fuel : Nat) (s : WebSocketService.WSState),
      (WebSocketService.reconnectDelaysAux fuel s).length ≤ fuel := by
  intro fuel
  induction fuel with
  | zero => intro s; simp [WebSocketService.reconnectDelaysAux]
  | succ n ih =>
    intro s
    unfold WebSocketService.reconnectDelaysAux
    cases h : WebSocketService.attemptReconnect s with
    | none => simp
    | some ds =>
      obtain ⟨d, s'⟩ := ds
      simpa using Nat.succ_le_succ (ih s')

/-- Claim C9: after any disconnection at most 5 reconnection attempts are
scheduled; each attempt waits the current timeout, after which the
timeout doubles with a 30000 ms cap; from the initial state the delays
are exactly 1000, 2000, 4000, 8000, 16000 ms; a successful open resets
the counter and the timeout; once the counter reaches the maximum no
further attempt is scheduled. -/
theorem reconnect_bounded :
    (∀ s : WebSocketService.WSState,
      (WebSocketService.reconnectDelays s).length ≤ WebSocketService.maxReconnectAttempts) ∧
    WebSocketService.reconnectDelays WebSocketService.initialWSState =
      [1000, 2000, 4000, 8000, 16000] ∧
    (∀ s, WebSocketService.onOpen s = WebSocketService.initialWSState) ∧
    (∀ s d s', WebSocketService.attemptReconnect s = some (d, s') →
      d = s.reconnectTimeout ∧
      s'.reconnectTimeout = min (s.reconnectTimeout * 2) 30000 ∧
      s'.reconnectAttempts = s.reconnectAttempts + 1 ∧
      s'.reconnectTimeout ≤ 30000) ∧
    (∀ s : WebSocketService.WSState,
      s.reconnectAttempts ≥ WebSocketService.maxReconnectAttempts →
        WebSocketService.attemptReconnect s = none) := by
  refine ⟨?_, by decide, fun s => rfl, ?_, ?_⟩
  · intro s
    exact reconnectDelaysAux_length_le WebSocketService.maxReconnectAttempts s
  · intro s d s' h
    unfold WebSocketService.attemptReconnect at h
    by_cases hge : s.reconnectAttempts ≥ WebSocketService.maxReconnectAttempts
    · simp [hge] at h
    · simp only [hge, if_neg, if_false] at h
      obtain ⟨rfl, rfl⟩ := Prod.mk.injEq .. ▸ Option.some.injEq .. ▸ h
      exact ⟨rfl, rfl, rfl, Nat.min_le_right _ _⟩
  · intro s h
    unfold WebSocketService.attemptReconnect
    simp [h]

/-- Witness for the C9 theorem: the first reconnection from the initial
state waits 1000 ms and doubles the timeout to 2000 ms. -/
theorem reconnect_bounded_witness :
    (1000 : Nat) = WebSocketService.initialWSState.reconnectTimeout ∧
    (WebSocketService.WSState.mk 2000 1).reconnectTimeout =
      min (WebSocketService.initialWSState.reconnectTimeout * 2) 30000 ∧
    (WebSocketService.WSState.mk 2000 1).reconnectAttempts =
      WebSocketService.initialWSState.reconnectAttempts + 1 ∧
    (WebSocketService.WSState.mk 2000 1).reconnectTimeout ≤ 30000 :=
  reconnect_bounded.2.2.2.1 WebSocketService.initialWSState 1000 ⟨2000, 1⟩ (by decide)

/- ## Claim C10: deleting a subscription never deletes media rows -/

/-- Claim C10: deleting a subscription row deletes no `media_items` row;
each row referencing the deleted subscription only has its
`subscription_id` set to NULL, and every other column — including
`origin` — is unchanged; rows not referencing it are wholly untouched. -/
theorem delete_subscription_frame (db : Db) (sid : Nat) :
    ((deleteSubscription db sid).media_items).length = db.media_items.length ∧
    List.Forall₂ (fun old new =>
      new.id = old.id ∧ new.title = old.title ∧ new.type = old.type ∧
      new.source_type = old.source_type ∧ new.source_url = old.source_url ∧
      new.duration = old.duration ∧ new.audio_hash = old.audio_hash ∧
      new.raw_text = old.raw_text ∧ new.transcript = old.transcript ∧
      new.ai_summary = old.ai_summary ∧ new.tags = old.tags ∧
      new.embedding = old.embedding ∧ new.status = old.status ∧
      new.created_at = old.created_at ∧ new.imported_at = old.imported_at ∧
      new.minio_path = old.minio_path ∧ new.origin = old.origin ∧
      new.subscription_id =
        (if old.subscription_id = some sid then none else old.subscription_id))
      db.media_items (deleteSubscription db sid).media_items := by
  constructor
  · simp [deleteSubscription]
  · show List.Forall₂ _ db.media_items (db.media_items.map (applySetNull sid))
    rw [List.forall₂_map_right_iff]
    rw [List.forall₂_same]
    intro r _
    unfold applySetNull
    by_cases h : r.subscription_id = some sid
    · simp [h]
    · simp [h]
